import Mathlib

/-!
Shallow embedding of the CareFlow routing engine
(`app/core/router.py`, `app/core/guardrails.py`, `app/core/severity.py`).

Python strings are modelled as Lean `String`; `s.lower()` is character-wise
ASCII lowercasing, `pat in s` is contiguous-substring search, `s.strip()`
removes leading/trailing whitespace.  The Classifier Gateway (`llm.invoke`)
is modelled as a parameter `classifier : String → Option String`: `some raw`
is a successful call returning content `raw`, `none` is a raised exception
(unreachable / timeout), which propagates (`route_input` returns `none`).
-/

-- ─── Python string primitives ───────────────────────────────────

/-- Python whitespace (`str.strip`, regex `\s`), ASCII part. -/
def isPySpace (c : Char) : Bool :=
  c = ' ' || c = '\t' || c = '\n' || c = '\r' || c = '\x0b' || c = '\x0c'

/-- Character-wise lowercasing, modelling Python `str.lower()` on ASCII. -/
def pyLower (s : String) : String :=
  String.mk (s.toList.map Char.toLower)

/-- Character-wise uppercasing, modelling Python `str.upper()` on ASCII. -/
def pyUpper (s : String) : String :=
  String.mk (s.toList.map Char.toUpper)

/-- `hasPrefixL p l` is true iff `p` is a prefix of `l`. -/
def hasPrefixL : List Char → List Char → Bool
  | [], _ => true
  | _ :: _, [] => false
  | p :: ps, c :: cs => p = c && hasPrefixL ps cs

/-- `hasInfixL p l` is true iff `p` occurs contiguously inside `l`. -/
def hasInfixL (p : List Char) : List Char → Bool
  | [] => hasPrefixL p []
  | c :: cs => hasPrefixL p (c :: cs) || hasInfixL p cs

/-- Python `pat in s` (contiguous substring test). -/
def pyIn (pat s : String) : Bool :=
  hasInfixL pat.toList s.toList

/-- Python `s.strip()`: drop leading and trailing whitespace. -/
def pyStrip (s : String) : String :=
  String.mk (((s.toList.dropWhile isPySpace).reverse.dropWhile isPySpace).reverse)

/-- Regex `\w` or `\s`: the characters KEPT by `re.sub(r"[^\w\s]", "", ·)`. -/
def isWordOrSpace (c : Char) : Bool :=
  c.isAlphanum || c = '_' || isPySpace c

/-- Python `str.splitlines()` over newline characters; composed with the
strip-and-drop-empties filter below it agrees with CPython on `\r\n`. -/
def splitOnNL : List Char → List (List Char)
  | [] => [[]]
  | c :: cs =>
      if c = '\n' || c = '\r' then [] :: splitOnNL cs
      else
        match splitOnNL cs with
        | [] => [[c]]
        | l :: ls => (c :: l) :: ls

-- ─── app/core/guardrails.py ──────────────────────────────────────

def NON_MEDICAL_PATTERNS : List String :=
  ["weather", "sports", "politics", "recipe", "movie",
   "game", "joke", "story", "homework"]

/-- The templated rejection text of `check_medical_scope`. -/
def scope_block_message (pattern : String) : String :=
  "CareFlow is a medical-only platform. I can\x27t help with " ++ pattern ++ "-related questions."

/-- First non-medical pattern occurring in the lowercased message
(first hit of the `for pattern in NON_MEDICAL_PATTERNS` loop). -/
def matched_scope (message : String) : Option String :=
  NON_MEDICAL_PATTERNS.find? (fun p => pyIn p (pyLower message))

/-- `check_medical_scope(message) -> (is_valid, warning_message)`. -/
def check_medical_scope (message : String) : Bool × String :=
  match matched_scope message with
  | some p => (false, scope_block_message p)
  | none => (true, "")

def suspension_message : String :=
  "Your account has been suspended due to repeated non-medical queries."

def final_warning_message : String :=
  "Final warning: One more non-medical query will suspend your account."

def mild_warning_message : String :=
  "Please keep questions medical-related."

/-- `check_abuse_strikes(user_strikes) -> (is_allowed, message)`.
Python ints are unbounded and may be negative, hence `Int`. -/
def check_abuse_strikes (user_strikes : Int) : Bool × String :=
  if user_strikes ≥ 3 then (false, suspension_message)
  else if user_strikes = 2 then (true, final_warning_message)
  else if user_strikes = 1 then (true, mild_warning_message)
  else (true, "")

-- ─── app/core/severity.py ────────────────────────────────────────

def EMERGENCY_KEYWORDS : List String :=
  ["stroke", "chest pain", "heart attack", "severe bleeding",
   "unconscious", "not breathing", "seizure", "overdose",
   "can\x27t breathe", "suicidal", "suicide", "severe pain"]

def HIGH_MEDICAL_KEYWORDS : List String :=
  ["severe", "critical", "intense pain", "high fever", "vomiting blood",
   "allergic reaction", "broken bone", "deep cut", "burn"]

def MODERATE_MEDICAL_KEYWORDS : List String :=
  ["fever", "cough", "headache", "stomach", "rash", "infection",
   "pain", "dizzy", "nausea", "cold", "flu"]

def LOW_PSYCH_KEYWORDS : List String := ["stress", "tired", "sleep", "worried", "mood"]

def MODERATE_PSYCH_KEYWORDS : List String :=
  ["anxiety", "panic", "depressed", "insomnia", "overwhelmed"]

def CRISIS_PSYCH_KEYWORDS : List String :=
  ["suicidal", "suicide", "self-harm", "end my life", "want to die"]

/-- `any(kw in msg for kw in kws)` where `msg` is already lowercased. -/
def anyKeywordIn (kws : List String) (msg : String) : Bool :=
  kws.any (fun kw => pyIn kw msg)

/-- `_severity_rules(message)`: rule-based fallback, ordered keyword tiers. -/
def severity_rules (message : String) : String × String :=
  let msg := pyLower message
  if anyKeywordIn CRISIS_PSYCH_KEYWORDS msg then ("M1", "P3")
  else if anyKeywordIn MODERATE_PSYCH_KEYWORDS msg then ("M1", "P2")
  else if anyKeywordIn LOW_PSYCH_KEYWORDS msg then ("M0", "P1")
  else if anyKeywordIn EMERGENCY_KEYWORDS msg then ("M3", "P0")
  else if anyKeywordIn HIGH_MEDICAL_KEYWORDS msg then ("M2", "P0")
  else if anyKeywordIn MODERATE_MEDICAL_KEYWORDS msg then ("M1", "P0")
  else ("M1", "P0")

/-- `is_emergency(message)`: any emergency keyword in the lowercased message. -/
def is_emergency (message : String) : Bool :=
  EMERGENCY_KEYWORDS.any (fun kw => pyIn kw (pyLower message))

-- ─── app/core/router.py : state and lexical data ────────────────

/-- `CareFlowState` TypedDict. `abuse_strikes` is a Python int (`Int`). -/
structure CareFlowState where
  user_id : String
  message : String
  session_id : Option String
  abuse_strikes : Int
  route : String
  block_reason : Option String
  classification : Option String
  doctor_specialty : Option String
  doctor_suggestion_text : Option String
  response_message : Option String
deriving Repr, DecidableEq

def GREETING_PHRASES : List String :=
  ["hello", "hi", "hey", "hola", "good morning", "good afternoon",
   "good evening", "good night", "good day", "how are you",
   "how do you do", "thanks", "thank you", "bye", "goodbye",
   "good bye", "see you", "hey there", "hi there"]

/-- The inline seed tuple `("hello", "hi", "hey", "thanks", "bye")`. -/
def GREETING_SEEDS : List String := ["hello", "hi", "hey", "thanks", "bye"]

/-- `_normalize_for_greeting`: `re.sub(r"[^\w\s]", "", msg.lower()).strip()`. -/
def normalize_for_greeting (msg : String) : String :=
  pyStrip (String.mk ((pyLower msg).toList.filter isWordOrSpace))

def DOCTOR_PHRASES : List String :=
  ["doctor", "doctors", "i want a doctor", "i want doctor", "find me a doctor",
   "book a doctor", "need a doctor", "need doctor", "talk to a doctor",
   "see a doctor", "consult a doctor", "doctor please", "find doctor",
   "get doctor", "find me doctor"]

def PHARMACY_PHRASES : List String :=
  ["find a pharmacy", "pharmacy near me", "nearby pharmacy",
   "find pharmacy", "where is a pharmacy", "pharmacies near",
   "buy medicine", "buy medication", "where to buy medicine",
   "need to buy", "get medicine from", "otc near me",
   "i need medicine", "need medicine", "want medicine",
   "i need medication", "need medication"]

def LAB_PHRASES : List String :=
  ["book a lab test", "i need a blood test", "lab test",
   "need lab work", "diagnostic test", "find a lab",
   "blood test", "blood work", "get a blood test", "want blood test",
   "need blood test", "blood test done", "diagnostic lab", "pathology",
   "test", "tests", "scan", "scans", "diagnosis", "diagnostic"]

def AMBULANCE_PHRASES : List String :=
  ["call ambulance", "need ambulance", "call 112",
   "emergency", "i need help now", "someone is dying"]

/-- `DIRECT_INTENT_MAP`: a Python dict, iterated in insertion order. -/
def DIRECT_INTENT_MAP : List (String × List String) :=
  [("doctor_handoff", DOCTOR_PHRASES),
   ("pharmacy_handoff", PHARMACY_PHRASES),
   ("lab_handoff", LAB_PHRASES),
   ("emergency", AMBULANCE_PHRASES)]

-- ─── app/core/router.py : node functions ────────────────────────

/-- The three greeting branches of `check_greeting` (empty normalized form,
exact phrase-set membership, short message containing a seed substring).
All three return the identical state update. -/
def is_greeting_message (msg : String) : Bool :=
  let normalized := normalize_for_greeting msg
  normalized = "" ||
  (GREETING_PHRASES.contains normalized || GREETING_PHRASES.any (fun g => normalized = g)) ||
  (normalized.length ≤ 25 && GREETING_SEEDS.any (fun g => pyIn g normalized))

def greeting_reply : String := "Hi! How can I help you today?"

/-- Node 0: `check_greeting`. -/
def check_greeting (state : CareFlowState) : CareFlowState :=
  if is_greeting_message state.message then
    { state with route := "greeting", response_message := some greeting_reply }
  else
    { state with route := "not_greeting" }

/-- Node 1: `check_guardrails` (abuse-strike check, then scope check). -/
def check_guardrails (state : CareFlowState) : CareFlowState :=
  let ab := check_abuse_strikes state.abuse_strikes
  if ab.1 = false then
    { state with
      route := "blocked", block_reason := some ab.2,
      response_message := some ab.2 }
  else
    let sc := check_medical_scope state.message
    if sc.1 = false then
      let new_strikes := state.abuse_strikes + 1
      let warning := (check_abuse_strikes new_strikes).2
      { state with
        route := "blocked", block_reason := some sc.2,
        abuse_strikes := new_strikes,
        response_message := some (pyStrip (sc.2 ++ " " ++ warning)) }
    else
      { state with route := "passed_guardrails" }

/-- First intent category (in `DIRECT_INTENT_MAP` order) with a phrase
occurring in the lowercased message — the `for intent, phrases in
DIRECT_INTENT_MAP.items()` loop, first hit. -/
def matched_intent (message : String) : Option String :=
  (DIRECT_INTENT_MAP.find?
      (fun ip => ip.2.any (fun phrase => pyIn phrase (pyLower message)))).map Prod.fst

/-- Node 2: `check_intent_override`. -/
def check_intent_override (state : CareFlowState) : CareFlowState :=
  match matched_intent state.message with
  | some intent =>
      { state with
        route := intent,
        response_message := some ("Direct handoff: " ++ intent) }
  | none => { state with route := "needs_classification" }

def emergency_reply : String :=
  "Emergency keywords detected. Initiating emergency protocol."

/-- Node 3: `check_emergency_keywords`. -/
def check_emergency_keywords (state : CareFlowState) : CareFlowState :=
  if is_emergency state.message then
    { state with route := "emergency", response_message := some emergency_reply }
  else
    { state with route := "needs_ai_classification" }

/-- `[ln.strip() for ln in raw.splitlines() if ln.strip()]`. -/
def parsed_lines (raw : String) : List String :=
  ((splitOnNL raw.toList).map (fun l => pyStrip (String.mk l))).filter
    (fun l => decide (l ≠ ""))

/-- `lines[0].upper() if lines else "MEDICAL"`. -/
def headUpper : List String → String
  | [] => "MEDICAL"
  | l :: _ => pyUpper l

/-- The classification `classify_with_ai` extracts from raw gateway content. -/
def ai_classification (content : String) : String :=
  headUpper (parsed_lines (pyStrip content))

/-- Node 4: `classify_with_ai`.  `classifier` models `llm.invoke`:
`some raw` is the (string) content of a successful response, `none` a
raised exception, which this node does not catch. -/
def classify_with_ai (classifier : String → Option String)
    (state : CareFlowState) : Option CareFlowState :=
  match classifier state.message with
  | none => none
  | some content =>
      let raw := pyStrip content
      let lines := parsed_lines raw
      let classification := headUpper lines
      let dst : Option String :=
        match lines with
        | _ :: l2 :: _ =>
            if classification = "MEDICAL" then
              let suggestion := pyStrip l2
              if suggestion ≠ "" && suggestion.length < 300 then some suggestion
              else none
            else none
        | _ => none
      let route :=
        if classification = "EMERGENCY" then "emergency"
        else if classification = "MEDICAL" then "medical"
        else if classification = "UNCLEAR" then "unclear"
        else "medical"
      some { state with
             route := route, classification := some classification,
             doctor_specialty := none, doctor_suggestion_text := dst,
             response_message := some ("Classified as: " ++ classification) }

-- ─── app/core/router.py : graph and entry point ─────────────────

/-- The compiled LangGraph pipeline: greeting → guardrails →
intent_override → emergency_keywords → ai_classify, with the conditional
edges `after_greeting`, `after_guardrails`, `after_intent`,
`after_emergency_check` short-circuiting to END.  `none` models an
uncaught exception escaping `router_graph.invoke`. -/
def run_router (classifier : String → Option String)
    (st : CareFlowState) : Option CareFlowState :=
  let s0 := check_greeting st
  if s0.route = "greeting" then some s0
  else
    let s1 := check_guardrails s0
    if s1.route = "blocked" then some s1
    else
      let s2 := check_intent_override s1
      if s2.route = "doctor_handoff" ∨ s2.route = "pharmacy_handoff" ∨
         s2.route = "lab_handoff" ∨ s2.route = "emergency" then some s2
      else
        let s3 := check_emergency_keywords s2
        if s3.route = "emergency" then some s3
        else classify_with_ai classifier s3

/-- The initial state built by `route_input`. -/
def initial_state (user_id message : String) (session_id : Option String)
    (abuse_strikes : Int) : CareFlowState :=
  { user_id := user_id, message := message, session_id := session_id,
    abuse_strikes := abuse_strikes, route := "", block_reason := none,
    classification := none, doctor_specialty := none,
    doctor_suggestion_text := none, response_message := none }

/-- `route_input(user_id, message, session_id, abuse_strikes)`. -/
def route_input (classifier : String → Option String)
    (user_id message : String) (session_id : Option String)
    (abuse_strikes : Int) : Option CareFlowState :=
  run_router classifier (initial_state user_id message session_id abuse_strikes)


-- ─── Helper lemmas on the node functions ────────────────────────

theorem check_abuse_strikes_fst (n : Int) :
    (check_abuse_strikes n).1 = !decide (3 ≤ n) := by
  unfold check_abuse_strikes
  split_ifs with h1 h2 h3 <;> simp_all [ge_iff_le]

theorem check_greeting_pos (st : CareFlowState)
    (h : is_greeting_message st.message = true) :
    check_greeting st =
      { st with route := "greeting", response_message := some greeting_reply } := by
  simp [check_greeting, h]

theorem check_greeting_neg (st : CareFlowState)
    (h : is_greeting_message st.message = false) :
    check_greeting st = { st with route := "not_greeting" } := by
  simp [check_greeting, h]

theorem check_guardrails_strike (st : CareFlowState)
    (h : 3 ≤ st.abuse_strikes) :
    check_guardrails st =
      { st with
        route := "blocked", block_reason := some suspension_message,
        response_message := some suspension_message } := by
  unfold check_guardrails
  have h1 : check_abuse_strikes st.abuse_strikes = (false, suspension_message) := by
    unfold check_abuse_strikes
    rw [if_pos h]
  simp [h1]

theorem check_guardrails_scope (st : CareFlowState) (kw : String)
    (hn : ¬ 3 ≤ st.abuse_strikes) (hs : matched_scope st.message = some kw) :
    check_guardrails st =
      { st with
        route := "blocked", block_reason := some (scope_block_message kw),
        abuse_strikes := st.abuse_strikes + 1,
        response_message := some (pyStrip (scope_block_message kw ++ " " ++
          (check_abuse_strikes (st.abuse_strikes + 1)).2)) } := by
  unfold check_guardrails
  have h1 : (check_abuse_strikes st.abuse_strikes).1 = true := by
    rw [check_abuse_strikes_fst]
    simp [hn]
  simp [h1, check_medical_scope, hs]

theorem check_guardrails_pass (st : CareFlowState)
    (hn : ¬ 3 ≤ st.abuse_strikes) (hs : matched_scope st.message = none) :
    check_guardrails st = { st with route := "passed_guardrails" } := by
  unfold check_guardrails
  have h1 : (check_abuse_strikes st.abuse_strikes).1 = true := by
    rw [check_abuse_strikes_fst]
    simp [hn]
  simp [h1, check_medical_scope, hs]

theorem check_intent_override_some (st : CareFlowState) (i : String)
    (h : matched_intent st.message = some i) :
    check_intent_override st =
      { st with
        route := i, response_message := some ("Direct handoff: " ++ i) } := by
  simp [check_intent_override, h]

theorem check_intent_override_none (st : CareFlowState)
    (h : matched_intent st.message = none) :
    check_intent_override st = { st with route := "needs_classification" } := by
  simp [check_intent_override, h]

theorem check_emergency_pos (st : CareFlowState)
    (h : is_emergency st.message = true) :
    check_emergency_keywords st =
      { st with route := "emergency", response_message := some emergency_reply } := by
  simp [check_emergency_keywords, h]

theorem check_emergency_neg (st : CareFlowState)
    (h : is_emergency st.message = false) :
    check_emergency_keywords st = { st with route := "needs_ai_classification" } := by
  simp [check_emergency_keywords, h]

theorem matched_intent_mem (msg i : String)
    (h : matched_intent msg = some i) :
    i = "doctor_handoff" ∨ i = "pharmacy_handoff" ∨ i = "lab_handoff" ∨ i = "emergency" := by
  unfold matched_intent at h
  rw [Option.map_eq_some'] at h
  obtain ⟨pr, hfind, hfst⟩ := h
  have hmem := List.mem_of_find?_eq_some hfind
  simp only [DIRECT_INTENT_MAP, List.mem_cons, List.not_mem_nil, or_false] at hmem
  rcases hmem with h | h | h | h <;> subst h <;> simp at hfst <;> simp [← hfst]

-- ─── Helper lemmas on the full pipeline ─────────────────────────

theorem run_router_greeting (cl : String → Option String) (st : CareFlowState)
    (hg : is_greeting_message st.message = true) :
    run_router cl st =
      some { st with route := "greeting", response_message := some greeting_reply } := by
  simp only [run_router]
  rw [check_greeting_pos st hg]
  simp

theorem run_router_strike_block (cl : String → Option String) (st : CareFlowState)
    (hg : is_greeting_message st.message = false) (hn : 3 ≤ st.abuse_strikes) :
    run_router cl st =
      some { st with
             route := "blocked", block_reason := some suspension_message,
             response_message := some suspension_message } := by
  simp only [run_router]
  rw [check_greeting_neg st hg]
  rw [check_guardrails_strike { st with route := "not_greeting" } hn]
  simp

theorem run_router_scope_block (cl : String → Option String) (st : CareFlowState)
    (kw : String) (hg : is_greeting_message st.message = false)
    (hn : ¬ 3 ≤ st.abuse_strikes) (hs : matched_scope st.message = some kw) :
    run_router cl st =
      some { st with
             route := "blocked", block_reason := some (scope_block_message kw),
             abuse_strikes := st.abuse_strikes + 1,
             response_message := some (pyStrip (scope_block_message kw ++ " " ++
               (check_abuse_strikes (st.abuse_strikes + 1)).2)) } := by
  simp only [run_router]
  rw [check_greeting_neg st hg]
  rw [check_guardrails_scope { st with route := "not_greeting" } kw hn hs]
  simp

theorem run_router_intent (cl : String → Option String) (st : CareFlowState)
    (i : String) (hg : is_greeting_message st.message = false)
    (hn : ¬ 3 ≤ st.abuse_strikes) (hs : matched_scope st.message = none)
    (hi : matched_intent st.message = some i) :
    run_router cl st =
      some { st with
             route := i, response_message := some ("Direct handoff: " ++ i) } := by
  simp only [run_router]
  rw [check_greeting_neg st hg]
  rw [check_guardrails_pass { st with route := "not_greeting" } hn hs]
  rw [check_intent_override_some { st with route := "passed_guardrails" } i hi]
  rcases matched_intent_mem st.message i hi with h | h | h | h <;> subst h <;> simp

theorem run_router_emergency (cl : String → Option String) (st : CareFlowState)
    (hg : is_greeting_message st.message = false)
    (hn : ¬ 3 ≤ st.abuse_strikes) (hs : matched_scope st.message = none)
    (hi : matched_intent st.message = none) (he : is_emergency st.message = true) :
    run_router cl st =
      some { st with
             route := "emergency", response_message := some emergency_reply } := by
  simp only [run_router]
  rw [check_greeting_neg st hg]
  rw [check_guardrails_pass { st with route := "not_greeting" } hn hs]
  rw [check_intent_override_none { st with route := "passed_guardrails" } hi]
  rw [check_emergency_pos { st with route := "needs_classification" } he]
  simp

theorem run_router_to_classify (cl : String → Option String) (st : CareFlowState)
    (hg : is_greeting_message st.message = false)
    (hn : ¬ 3 ≤ st.abuse_strikes) (hs : matched_scope st.message = none)
    (hi : matched_intent st.message = none) (he : is_emergency st.message = false) :
    run_router cl st =
      classify_with_ai cl { st with route := "needs_ai_classification" } := by
  simp only [run_router]
  rw [check_greeting_neg st hg]
  rw [check_guardrails_pass { st with route := "not_greeting" } hn hs]
  rw [check_intent_override_none { st with route := "passed_guardrails" } hi]
  rw [check_emergency_neg { st with route := "needs_classification" } he]
  simp

theorem initial_state_message (u msg : String) (sid : Option String) (n : Int) :
    (initial_state u msg sid n).message = msg := rfl

theorem initial_state_strikes (u msg : String) (sid : Option String) (n : Int) :
    (initial_state u msg sid n).abuse_strikes = n := rfl

theorem classify_with_ai_raises (cl : String → Option String) (st : CareFlowState)
    (h : cl st.message = none) : classify_with_ai cl st = none := by
  simp [classify_with_ai, h]

theorem classify_with_ai_unparseable (cl : String → Option String)
    (st : CareFlowState) (raw : String) (h : cl st.message = some raw)
    (h1 : ai_classification raw ≠ "EMERGENCY")
    (h2 : ai_classification raw ≠ "MEDICAL")
    (h3 : ai_classification raw ≠ "UNCLEAR") :
    classify_with_ai cl st =
      some { st with
             route := "medical",
             classification := some (ai_classification raw),
             doctor_specialty := none, doctor_suggestion_text := none,
             response_message := some ("Classified as: " ++ ai_classification raw) } := by
  have hcls : ai_classification raw = headUpper (parsed_lines (pyStrip raw)) := rfl
  rcases hL : parsed_lines (pyStrip raw) with _ | ⟨l1, _ | ⟨l2, rest⟩⟩
  · exact absurd (by rw [hcls, hL]; rfl) h2
  · have hc : ai_classification raw = pyUpper l1 := by rw [hcls, hL]; rfl
    simp only [classify_with_ai, h, hL, headUpper]
    rw [← hc]
    simp [h1, h2, h3]
  · have hc : ai_classification raw = pyUpper l1 := by rw [hcls, hL]; rfl
    simp only [classify_with_ai, h, hL, headUpper]
    rw [← hc]
    simp [h1, h2, h3]

-- ─── Claim theorems ─────────────────────────────────────────────

/-- Claim C1, counterexample: with a Classifier Gateway stub that raises
(`fun _ => none`), the engine does NOT return a terminal Decision with
route=medical for the message "my arm hurts" (which reaches the
AI-classification stage) — the failure propagates out of `route_input`
(the chat endpoint then surfaces a 503), so the claim as stated is false. -/
theorem classifier_exception_not_absorbed :
    route_input (fun _ => none) "u" "my arm hurts" none 0 = none ∧
    ¬ ∃ st, route_input (fun _ => none) "u" "my arm hurts" none 0 = some st ∧
        st.route = "medical" := by
  have h : route_input (fun _ => none) "u" "my arm hurts" none 0 = none := by decide
  refine ⟨h, ?_⟩
  rintro ⟨st, hst, -⟩
  rw [h] at hst
  exact Option.noConfusion hst

/-- Claim C1, amended: for every message reaching the AI-classification
stage and every abuse-strike count, (a) if the Classifier Gateway call
raises, the exception propagates out of the routing engine (no Decision is
produced); (b) if the call returns output whose parsed classification is
none of EMERGENCY/MEDICAL/UNCLEAR (unparseable), the engine degrades to a
terminal Decision with route=medical and doctorSuggestion unset — the
classification field is set to the uppercased first line, not unset. -/
theorem classifier_failure_policy (u : String) (sid : Option String)
    (msg : String) (n : Int)
    (hg : is_greeting_message msg = false) (hn : ¬ 3 ≤ n)
    (hs : matched_scope msg = none) (hi : matched_intent msg = none)
    (he : is_emergency msg = false) :
    (∀ cl : String → Option String, cl msg = none →
        route_input cl u msg sid n = none) ∧
    (∀ raw : String,
        ai_classification raw ≠ "EMERGENCY" →
        ai_classification raw ≠ "MEDICAL" →
        ai_classification raw ≠ "UNCLEAR" →
        ∃ st, route_input (fun _ => some raw) u msg sid n = some st ∧
          st.route = "medical" ∧ st.doctor_suggestion_text = none ∧
          st.classification = some (ai_classification raw)) := by
  constructor
  · intro cl hcl
    rw [show route_input cl u msg sid n =
          run_router cl (initial_state u msg sid n) from rfl,
       run_router_to_classify cl (initial_state u msg sid n) hg hn hs hi he]
    exact classify_with_ai_raises cl _ hcl
  · intro raw h1 h2 h3
    have heq := classify_with_ai_unparseable (fun _ => some raw)
      { initial_state u msg sid n with route := "needs_ai_classification" }
      raw rfl h1 h2 h3
    have hroute : route_input (fun _ => some raw) u msg sid n =
        classify_with_ai (fun _ => some raw)
          { initial_state u msg sid n with route := "needs_ai_classification" } :=
      run_router_to_classify (fun _ => some raw)
        (initial_state u msg sid n) hg hn hs hi he
    exact ⟨_, hroute.trans heq, rfl, rfl, rfl⟩

/-- Witness for C1 (amended) at message "my arm hurts", strikes 0, with a
raising stub and with the unparseable output "GIBBERISH". -/
theorem classifier_failure_policy_witness :
    route_input (fun _ => none) "u2" "my arm hurts" none 0 = none ∧
    ∃ st, route_input (fun _ => some "GIBBERISH") "u2" "my arm hurts" none 0 =
        some st ∧
      st.route = "medical" ∧ st.doctor_suggestion_text = none ∧
      st.classification = some (ai_classification "GIBBERISH") := by
  have h := classifier_failure_policy "u2" none "my arm hurts" 0
    (by decide) (by decide) (by decide) (by decide) (by decide)
  exact ⟨h.1 (fun _ => none) rfl, h.2 "GIBBERISH" (by decide) (by decide) (by decide)⟩

/-- Claim C2: a message with an emergency keyword that is not a greeting,
not blocked by guardrails and matches no direct-intent phrase routes to
emergency, and the result is one fixed state, identical for every
classifier stub (so the classifier is never consulted). -/
theorem emergency_keyword_bypasses_classifier (u : String) (sid : Option String)
    (msg : String) (n : Int)
    (hg : is_greeting_message msg = false) (hn : ¬ 3 ≤ n)
    (hs : matched_scope msg = none) (hi : matched_intent msg = none)
    (he : is_emergency msg = true) :
    ∃ st, (∀ cl, route_input cl u msg sid n = some st) ∧
      st.route = "emergency" :=
  ⟨_, fun cl => run_router_emergency cl (initial_state u msg sid n) hg hn hs hi he,
   rfl⟩

/-- Witness for C2 at message "chest pain", strikes 0. -/
theorem emergency_keyword_bypasses_classifier_witness :
    is_emergency "chest pain" = true ∧
    ∃ st, (∀ cl, route_input cl "u" "chest pain" none 0 = some st) ∧
      st.route = "emergency" :=
  ⟨by decide,
   emergency_keyword_bypasses_classifier "u" none "chest pain" 0
     (by decide) (by decide) (by decide) (by decide) (by decide)⟩

/-- Claim C3 (implicit): any message whose normalized form is at most 25
characters and contains one of the greeting seed substrings routes to
greeting — for every abuse-strike count (including suspended users) and
identically for every classifier stub, with no strike recorded, no block
and no classification, even when the message also contains an emergency
keyword. -/
theorem short_seed_message_is_greeting (u : String) (sid : Option String)
    (msg : String) (n : Int)
    (hlen : (normalize_for_greeting msg).length ≤ 25)
    (hseed : GREETING_SEEDS.any (fun g => pyIn g (normalize_for_greeting msg)) = true) :
    ∃ st, (∀ cl, route_input cl u msg sid n = some st) ∧
      st.route = "greeting" ∧ st.abuse_strikes = n ∧
      st.classification = none ∧ st.block_reason = none := by
  have hg : is_greeting_message msg = true := by
    unfold is_greeting_message
    simp [hlen, hseed]
  exact ⟨_, fun cl => run_router_greeting cl (initial_state u msg sid n) hg,
    rfl, rfl, rfl, rfl⟩

/-- Witness for C3 at "hi chest pain" ("hi" inside a 13-character message
that also contains the emergency keyword "chest pain") with strikes 5 ≥ 3. -/
theorem short_seed_message_is_greeting_witness :
    is_emergency "hi chest pain" = true ∧ (3 : Int) ≤ 5 ∧
    ∃ st, (∀ cl, route_input cl "u" "hi chest pain" none 5 = some st) ∧
      st.route = "greeting" ∧ st.abuse_strikes = 5 ∧
      st.classification = none ∧ st.block_reason = none :=
  ⟨by decide, by decide,
   short_seed_message_is_greeting "u" none "hi chest pain" 5 (by decide) (by decide)⟩

/-- Claim C4: with abuse strikes at least 3, every non-greeting message is
blocked with the permanent-suspension reason regardless of content and of
the classifier, and the strike count in the result is unchanged. -/
theorem suspended_user_always_blocked (u : String) (sid : Option String)
    (msg : String) (n : Int)
    (hn : 3 ≤ n) (hg : is_greeting_message msg = false) :
    ∃ st, (∀ cl, route_input cl u msg sid n = some st) ∧
      st.route = "blocked" ∧ st.block_reason = some suspension_message ∧
      st.abuse_strikes = n :=
  ⟨_, fun cl => run_router_strike_block cl (initial_state u msg sid n) hg hn,
   rfl, rfl, rfl⟩

/-- Witness for C4 at message "weather" with strikes 3. -/
theorem suspended_user_always_blocked_witness :
    ∃ st, (∀ cl, route_input cl "u" "weather" none 3 = some st) ∧
      st.route = "blocked" ∧ st.block_reason = some suspension_message ∧
      st.abuse_strikes = 3 :=
  suspended_user_always_blocked "u" none "weather" 3 (by decide) (by decide)

/-- Claim C5, counterexample: "hi weather" contains the scope keyword
"weather" and strikes 0 < 3, yet the Decision is route=greeting with
strikes still 0 (the greeting node runs before guardrails), not
route=blocked with strikes 1 — so the claim as stated is false. -/
theorem scope_keyword_claim_cex :
    pyIn "weather" (pyLower "hi weather") = true ∧ (0 : Int) < 3 ∧
    (route_input (fun _ => none) "u" "hi weather" none 0).map
      (fun st => (st.route, st.abuse_strikes)) = some ("greeting", 0) :=
  ⟨by decide, by decide, by decide⟩

/-- Claim C5, amended: for every NON-GREETING message containing a
non-medical scope keyword and strikes below 3, the Decision is
route=blocked, the recorded strike count is the old count plus one, and
the block reason is the scope template naming the first matched keyword. -/
theorem scope_violation_blocks_and_strikes (u : String) (sid : Option String)
    (msg : String) (n : Int) (kw : String)
    (hg : is_greeting_message msg = false) (hn : ¬ 3 ≤ n)
    (hs : matched_scope msg = some kw) :
    ∃ st, (∀ cl, route_input cl u msg sid n = some st) ∧
      st.route = "blocked" ∧ st.abuse_strikes = n + 1 ∧
      st.block_reason = some (scope_block_message kw) :=
  ⟨_, fun cl => run_router_scope_block cl (initial_state u msg sid n) kw hg hn hs,
   rfl, rfl, rfl⟩

/-- Witness for C5 (amended) at message "weather" with strikes 0: blocked,
strikes become 1, reason names "weather". -/
theorem scope_violation_blocks_and_strikes_witness :
    matched_scope "weather" = some "weather" ∧
    ∃ st, (∀ cl, route_input cl "u" "weather" none 0 = some st) ∧
      st.route = "blocked" ∧ st.abuse_strikes = 0 + 1 ∧
      st.block_reason = some (scope_block_message "weather") :=
  ⟨by decide,
   scope_violation_blocks_and_strikes "u" none "weather" 0 "weather" (by decide)
     (by decide) (by decide)⟩

/-- Claim C6: the direct-intent check iterates the categories in the fixed
declaration order doctor_handoff → pharmacy_handoff → lab_handoff →
emergency and the first matching category wins; any matched intent decides
the route before the emergency keyword scan and independently of the
classifier; in particular "I want a doctor" with strikes 0 routes to
doctor_handoff. -/
theorem direct_intent_order_and_doctor :
    (∀ m : String, DOCTOR_PHRASES.any (fun p => pyIn p (pyLower m)) = true →
        matched_intent m = some "doctor_handoff") ∧
    (∀ m : String, DOCTOR_PHRASES.any (fun p => pyIn p (pyLower m)) = false →
        PHARMACY_PHRASES.any (fun p => pyIn p (pyLower m)) = true →
        matched_intent m = some "pharmacy_handoff") ∧
    (∀ m : String, DOCTOR_PHRASES.any (fun p => pyIn p (pyLower m)) = false →
        PHARMACY_PHRASES.any (fun p => pyIn p (pyLower m)) = false →
        LAB_PHRASES.any (fun p => pyIn p (pyLower m)) = true →
        matched_intent m = some "lab_handoff") ∧
    (∀ m : String, DOCTOR_PHRASES.any (fun p => pyIn p (pyLower m)) = false →
        PHARMACY_PHRASES.any (fun p => pyIn p (pyLower m)) = false →
        LAB_PHRASES.any (fun p => pyIn p (pyLower m)) = false →
        AMBULANCE_PHRASES.any (fun p => pyIn p (pyLower m)) = true →
        matched_intent m = some "emergency") ∧
    (∀ (u : String) (sid : Option String) (msg : String) (n : Int) (i : String),
        is_greeting_message msg = false → ¬ 3 ≤ n →
        matched_scope msg = none → matched_intent msg = some i →
        is_emergency msg = true →
        ∃ st, (∀ cl, route_input cl u msg sid n = some st) ∧ st.route = i) ∧
    (∀ (u : String) (sid : Option String) (cl : String → Option String),
        ∃ st, route_input cl u "I want a doctor" sid 0 = some st ∧
          st.route = "doctor_handoff") := by
  refine ⟨?_, ?_, ?_, ?_, ?_, ?_⟩
  · intro m h
    simp [matched_intent, DIRECT_INTENT_MAP, List.find?, h]
  · intro m h1 h2
    simp [matched_intent, DIRECT_INTENT_MAP, List.find?, h1, h2]
  · intro m h1 h2 h3
    simp [matched_intent, DIRECT_INTENT_MAP, List.find?, h1, h2, h3]
  · intro m h1 h2 h3 h4
    simp [matched_intent, DIRECT_INTENT_MAP, List.find?, h1, h2, h3, h4]
  · intro u sid msg n i hg hn hs hi _
    exact ⟨_, fun cl => run_router_intent cl (initial_state u msg sid n) i hg hn hs hi,
      rfl⟩
  · intro u sid cl
    exact ⟨_, run_router_intent cl (initial_state u "I want a doctor" sid 0)
      "doctor_handoff"
      (show is_greeting_message "I want a doctor" = false by decide)
      (show ¬ (3 : Int) ≤ 0 by decide)
      (show matched_scope "I want a doctor" = none by decide)
      (show matched_intent "I want a doctor" = some "doctor_handoff" by decide),
      rfl⟩

/-- Witness for C6: "i want a doctor and a blood test" matches both the
doctor and lab categories and resolves to doctor_handoff; the concrete
message "I want a doctor" routes to doctor_handoff under a failing
classifier stub. -/
theorem direct_intent_order_and_doctor_witness :
    DOCTOR_PHRASES.any (fun p => pyIn p (pyLower "i want a doctor and a blood test")) = true ∧
    LAB_PHRASES.any (fun p => pyIn p (pyLower "i want a doctor and a blood test")) = true ∧
    matched_intent "i want a doctor and a blood test" = some "doctor_handoff" ∧
    ∃ st, route_input (fun _ => none) "u" "I want a doctor" none 0 = some st ∧
      st.route = "doctor_handoff" :=
  ⟨by decide, by decide,
   direct_intent_order_and_doctor.1 "i want a doctor and a blood test" (by decide),
   direct_intent_order_and_doctor.2.2.2.2.2 "u" none (fun _ => none)⟩

/-- Claim C7: a message matching the greeting check (empty normalized
form, exact phrase match, or short with a seed substring) routes to
greeting for every abuse-strike count, identically for every classifier
stub, with the strike count unchanged and no block; an empty message is a
greeting, not an error. -/
theorem greeting_never_strikes (u : String) (sid : Option String)
    (msg : String) (n : Int)
    (h : normalize_for_greeting msg = "" ∨
         GREETING_PHRASES.contains (normalize_for_greeting msg) = true ∨
         ((normalize_for_greeting msg).length ≤ 25 ∧
          GREETING_SEEDS.any (fun g => pyIn g (normalize_for_greeting msg)) = true)) :
    ∃ st, (∀ cl, route_input cl u msg sid n = some st) ∧
      st.route = "greeting" ∧ st.abuse_strikes = n ∧
      st.block_reason = none ∧ st.classification = none := by
  have hg : is_greeting_message msg = true := by
    unfold is_greeting_message
    rcases h with h | h | h
    · simp [h]
    · have h' : normalize_for_greeting msg ∈ GREETING_PHRASES := by simpa using h
      simp [h']
    · simp [h.1, h.2]
  exact ⟨_, fun cl => run_router_greeting cl (initial_state u msg sid n) hg,
    rfl, rfl, rfl, rfl⟩

/-- Witness for C7 at the exact greeting "hello" with strikes 4 and at the
empty message with strikes 7. -/
theorem greeting_never_strikes_witness :
    (∃ st, (∀ cl, route_input cl "u" "hello" none 4 = some st) ∧
      st.route = "greeting" ∧ st.abuse_strikes = 4 ∧
      st.block_reason = none ∧ st.classification = none) ∧
    (∃ st, (∀ cl, route_input cl "u" "" none 7 = some st) ∧
      st.route = "greeting" ∧ st.abuse_strikes = 7 ∧
      st.block_reason = none ∧ st.classification = none) :=
  ⟨greeting_never_strikes "u" none "hello" 4 (Or.inr (Or.inl (by decide))),
   greeting_never_strikes "u" none "" 7 (Or.inl (by decide))⟩

/-- Claim C8: for a non-greeting message containing both a scope keyword
and an emergency keyword, and every abuse-strike count, the Decision is
route=blocked (guardrails run before the emergency scan), never
route=emergency. -/
theorem guardrails_precede_emergency (u : String) (sid : Option String)
    (msg : String) (n : Int) (kw : String)
    (hg : is_greeting_message msg = false)
    (hs : matched_scope msg = some kw)
    (he : is_emergency msg = true) :
    ∃ st, (∀ cl, route_input cl u msg sid n = some st) ∧
      st.route = "blocked" := by
  by_cases hn : 3 ≤ n
  · exact ⟨_, fun cl => run_router_strike_block cl (initial_state u msg sid n) hg hn,
      rfl⟩
  · exact ⟨_, fun cl => run_router_scope_block cl (initial_state u msg sid n) kw hg hn hs,
      rfl⟩

/-- Witness for C8 at "weather stroke" (scope keyword "weather" plus
emergency keyword "stroke") with strikes 0. -/
theorem guardrails_precede_emergency_witness :
    matched_scope "weather stroke" = some "weather" ∧
    is_emergency "weather stroke" = true ∧
    ∃ st, (∀ cl, route_input cl "u" "weather stroke" none 0 = some st) ∧
      st.route = "blocked" :=
  ⟨by decide, by decide,
   guardrails_precede_emergency "u" none "weather stroke" 0 "weather"
     (by decide) (by decide) (by decide)⟩

/-- Claim C9, counterexample: a scope violation at strikes -1 records -1+1 = 0,
while the same violation at strikes 0 records 1 — not the same updated
count, so the last part of the claim as stated is false. -/
theorem negative_strikes_increment_cex :
    (route_input (fun _ => none) "u" "weather" none (-1)).map
      (fun st => st.abuse_strikes) = some 0 ∧
    (route_input (fun _ => none) "u" "weather" none 0).map
      (fun st => st.abuse_strikes) = some 1 ∧
    some (0 : Int) ≠ some (1 : Int) :=
  ⟨by decide, by decide, by decide⟩

/-- Claim C9, amended: for every negative abuse-strike count the allowance
check behaves exactly as for count 0 (allowed, empty warning text) and
routing is not fatal; a subsequent scope violation records the old count
plus one (e.g. 0 for -1), which is NOT the count recorded for 0. -/
theorem negative_strikes_treated_as_zero (n : Int) (hneg : n < 0) :
    check_abuse_strikes n = check_abuse_strikes 0 ∧
    check_abuse_strikes n = (true, "") ∧
    (∀ (u : String) (sid : Option String) (msg kw : String),
      is_greeting_message msg = false → matched_scope msg = some kw →
      ∃ st, (∀ cl, route_input cl u msg sid n = some st) ∧
        st.route = "blocked" ∧ st.abuse_strikes = n + 1) := by
  have a1 : ¬ (n ≥ 3) := by omega
  have a2 : ¬ (n = 2) := by omega
  have a3 : ¬ (n = 1) := by omega
  have h0 : check_abuse_strikes n = (true, "") := by
    unfold check_abuse_strikes
    rw [if_neg a1, if_neg a2, if_neg a3]
  refine ⟨by rw [h0]; rfl, h0, ?_⟩
  intro u sid msg kw hg hs
  exact ⟨_, fun cl => run_router_scope_block cl (initial_state u msg sid n) kw hg
    (show ¬ (3 : Int) ≤ n by omega) hs, rfl, rfl⟩

/-- Witness for C9 (amended) at strikes -2 with message "weather". -/
theorem negative_strikes_treated_as_zero_witness :
    check_abuse_strikes (-2) = (true, "") ∧
    ∃ st, (∀ cl, route_input cl "u" "weather" none (-2) = some st) ∧
      st.route = "blocked" ∧ st.abuse_strikes = (-2) + 1 := by
  have h := negative_strikes_treated_as_zero (-2) (by decide)
  exact ⟨h.2.1, h.2.2 "u" none "weather" "weather" (by decide) (by decide)⟩

/-- Claim C10: the rule-based severity scorer evaluates its keyword tiers
in the fixed order crisis-psych → moderate-psych → low-psych →
emergency-medical → high-medical → moderate-medical, returning (M1,P3),
(M1,P2), (M0,P1), (M3,P0), (M2,P0), (M1,P0) respectively and (M1,P0) by
default; crisis psychological keywords take absolute precedence over all
medical tiers. -/
theorem severity_tier_order (msg : String) :
    (anyKeywordIn CRISIS_PSYCH_KEYWORDS (pyLower msg) = true →
        severity_rules msg = ("M1", "P3")) ∧
    (anyKeywordIn CRISIS_PSYCH_KEYWORDS (pyLower msg) = false →
        anyKeywordIn MODERATE_PSYCH_KEYWORDS (pyLower msg) = true →
        severity_rules msg = ("M1", "P2")) ∧
    (anyKeywordIn CRISIS_PSYCH_KEYWORDS (pyLower msg) = false →
        anyKeywordIn MODERATE_PSYCH_KEYWORDS (pyLower msg) = false →
        anyKeywordIn LOW_PSYCH_KEYWORDS (pyLower msg) = true →
        severity_rules msg = ("M0", "P1")) ∧
    (anyKeywordIn CRISIS_PSYCH_KEYWORDS (pyLower msg) = false →
        anyKeywordIn MODERATE_PSYCH_KEYWORDS (pyLower msg) = false →
        anyKeywordIn LOW_PSYCH_KEYWORDS (pyLower msg) = false →
        anyKeywordIn EMERGENCY_KEYWORDS (pyLower msg) = true →
        severity_rules msg = ("M3", "P0")) ∧
    (anyKeywordIn CRISIS_PSYCH_KEYWORDS (pyLower msg) = false →
        anyKeywordIn MODERATE_PSYCH_KEYWORDS (pyLower msg) = false →
        anyKeywordIn LOW_PSYCH_KEYWORDS (pyLower msg) = false →
        anyKeywordIn EMERGENCY_KEYWORDS (pyLower msg) = false →
        anyKeywordIn HIGH_MEDICAL_KEYWORDS (pyLower msg) = true →
        severity_rules msg = ("M2", "P0")) ∧
    (anyKeywordIn CRISIS_PSYCH_KEYWORDS (pyLower msg) = false →
        anyKeywordIn MODERATE_PSYCH_KEYWORDS (pyLower msg) = false →
        anyKeywordIn LOW_PSYCH_KEYWORDS (pyLower msg) = false →
        anyKeywordIn EMERGENCY_KEYWORDS (pyLower msg) = false →
        anyKeywordIn HIGH_MEDICAL_KEYWORDS (pyLower msg) = false →
        anyKeywordIn MODERATE_MEDICAL_KEYWORDS (pyLower msg) = true →
        severity_rules msg = ("M1", "P0")) ∧
    (anyKeywordIn CRISIS_PSYCH_KEYWORDS (pyLower msg) = false →
        anyKeywordIn MODERATE_PSYCH_KEYWORDS (pyLower msg) = false →
        anyKeywordIn LOW_PSYCH_KEYWORDS (pyLower msg) = false →
        anyKeywordIn EMERGENCY_KEYWORDS (pyLower msg) = false →
        anyKeywordIn HIGH_MEDICAL_KEYWORDS (pyLower msg) = false →
        anyKeywordIn MODERATE_MEDICAL_KEYWORDS (pyLower msg) = false →
        severity_rules msg = ("M1", "P0")) := by
  exact ⟨fun h1 => by simp [severity_rules, h1],
    fun h1 h2 => by simp [severity_rules, h1, h2],
    fun h1 h2 h3 => by simp [severity_rules, h1, h2, h3],
    fun h1 h2 h3 h4 => by simp [severity_rules, h1, h2, h3, h4],
    fun h1 h2 h3 h4 h5 => by simp [severity_rules, h1, h2, h3, h4, h5],
    fun h1 h2 h3 h4 h5 h6 => by simp [severity_rules, h1, h2, h3, h4, h5, h6],
    fun h1 h2 h3 h4 h5 h6 => by simp [severity_rules, h1, h2, h3, h4, h5, h6]⟩

/-- Witness for C10 at "suicide and chest pain": both a crisis
psychological keyword and an emergency medical keyword are present, and
the score is (M1,P3) — the crisis tier wins over the medical tiers. -/
theorem severity_tier_order_witness :
    anyKeywordIn CRISIS_PSYCH_KEYWORDS (pyLower "suicide and chest pain") = true ∧
    anyKeywordIn EMERGENCY_KEYWORDS (pyLower "suicide and chest pain") = true ∧
    severity_rules "suicide and chest pain" = ("M1", "P3") :=
  ⟨by decide, by decide,
   (severity_tier_order "suicide and chest pain").1 (by decide)⟩
